import Mathlib

/-!
Verification development for `tk-framework-gdn`
(`python/tk_framework_gdn/gdn_bridge.py`).

The file shallowly embeds the bridge module: the `timeout` decorator
(a `threading.Timer` racing a synchronous call), the environment-variable
timeout configuration, the inbound forwarding handlers (`_forward_command`,
`_forward_logging`), the fire-and-forget outbound senders, and the
active-document accessors.  Payload text is modelled with an executable
JSON value type, a `json.loads` parser and a `json.dumps` printer.

Python semantics that the embedding relies on are stated in the doc
comment of the definition that uses them.
-/

/-- A raised Python exception, identified by its class name and message. -/
structure PyExn where
  cls : String
  msg : String
deriving Repr, DecidableEq

/-- The `RPCTimeoutError` exception class defined at the bottom of
`gdn_bridge.py`, raised by `_handle_timeout` with the decorator's
configured `error_message`. -/
def RPCTimeoutError (message : String) : PyExn :=
  ⟨"RPCTimeoutError", message⟩

/-- The `ValueError` raised by the Python builtin `float(s)` on a string
that is not a numeric literal. -/
def valueErrorFloat (s : String) : PyExn :=
  ⟨"ValueError", "could not convert string to float: " ++ s⟩

/-- The `ValueError` raised by the Python builtin `int(s)` on a string
that is not an integer literal. -/
def valueErrorInt (s : String) : PyExn :=
  ⟨"ValueError", "invalid literal for int with base 10: " ++ s⟩

/-- The `TypeError` raised by the Python builtin `int(x)` on a value that
is neither a number nor a string (None, list, dict). -/
def typeErrorInt : PyExn :=
  ⟨"TypeError", "int argument must be a string or a real number"⟩

/-- The `AttributeError` raised by `x.get(...)` when the decoded payload
`x` is not a dict. -/
def attributeErrorNoGet : PyExn :=
  ⟨"AttributeError", "object has no attribute get"⟩

/-- The `json.decoder.JSONDecodeError` raised by `json.loads` on text that
is not valid JSON. -/
def jsonDecodeError : PyExn :=
  ⟨"json.decoder.JSONDecodeError", "Expecting value"⟩

/-- The `TypeError` raised by `json.dumps` on a Python object that is not
JSON serializable. -/
def typeErrorNotSerializable (desc : String) : PyExn :=
  ⟨"TypeError", "Object of type " ++ desc ++ " is not JSON serializable"⟩

/-!
Timeout configuration.

`gdn_bridge.py` lines 96-99 (evaluated once, when the class body runs at
module import):

    SHOTGUN_GDN_RESPONSE_TIMEOUT = os.environ.get(
        "SHOTGUN_GDN_RESPONSE_TIMEOUT", 300.0)
    SHOTGUN_GDN_HEARTBEAT_TIMEOUT = os.environ.get(
        "SHOTGUN_GDN_HEARTBEAT_TIMEOUT", 0.5)

`os.environ.get(name, default)` returns the *string* value of the
variable when it is set, and the given float default otherwise, so the
class attribute is either a `str` or a `float`. -/

/-- The value held by one of the two timeout class attributes: the raw
string from the environment when the variable is set, else the float
default given to `os.environ.get`. -/
inductive TimeoutSetting where
  | envString (s : String)
  | defaultFloat (q : ℚ)
deriving Repr, DecidableEq

/-- `os.environ.get(name, default)` with `env` the variable's value. -/
def environGet (env : Option String) (default : ℚ) : TimeoutSetting :=
  match env with
  | some s => .envString s
  | none => .defaultFloat default

/-- `SHOTGUN_GDN_RESPONSE_TIMEOUT` class attribute (line 96): environment
value if set, else the float default `300.0`. -/
def SHOTGUN_GDN_RESPONSE_TIMEOUT (env : Option String) : TimeoutSetting :=
  environGet env 300

/-- `SHOTGUN_GDN_HEARTBEAT_TIMEOUT` class attribute (line 98): environment
value if set, else the float default `0.5`. -/
def SHOTGUN_GDN_HEARTBEAT_TIMEOUT (env : Option String) : TimeoutSetting :=
  environGet env (1 / 2)

/-- Value of a decimal digit character. -/
def digitVal (c : Char) : Nat := c.toNat - 48

/-- Natural number denoted by a digit string. -/
def natOfDigits (cs : List Char) : Nat :=
  cs.foldl (fun n c => 10 * n + digitVal c) 0

/-- Python `str.strip()` of space characters, used because `float(s)` and
`int(s)` ignore surrounding whitespace. -/
def stripSpaces (s : List Char) : List Char :=
  (s.dropWhile (· = ' ')).reverse.dropWhile (· = ' ') |>.reverse

/-- Signed decimal integer literal, as accepted by Python `int(s)`:
optional sign then one or more digits (underscore grouping and non-decimal
bases are not modelled; no claim exercises them). -/
def parseIntChars (cs : List Char) : Option Int :=
  match cs with
  | '-' :: rest =>
      if rest ≠ [] ∧ rest.all Char.isDigit then some (-(natOfDigits rest : Int)) else none
  | '+' :: rest =>
      if rest ≠ [] ∧ rest.all Char.isDigit then some (natOfDigits rest : Int) else none
  | _ =>
      if cs ≠ [] ∧ cs.all Char.isDigit then some (natOfDigits cs : Int) else none

/-- Python `int(s)` on a string: strip whitespace, then a signed decimal
literal, else `ValueError`. -/
def pyIntOfString (s : String) : Option Int :=
  parseIntChars (stripSpaces s.toList)

/-- Unsigned decimal with an optional fractional part, as accepted by the
Python builtin `float(s)`: `digits`, `digits.digits`, `digits.` or
`.digits` (exponent form, `inf` and `nan` are not modelled; no claim
exercises them). -/
def parseUnsignedFloat (cs : List Char) : Option ℚ :=
  let intPart := cs.takeWhile Char.isDigit
  let rest := cs.dropWhile Char.isDigit
  match rest with
  | [] => if intPart = [] then none else some (natOfDigits intPart : ℚ)
  | '.' :: fracPart =>
      if fracPart.all Char.isDigit ∧ (intPart ≠ [] ∨ fracPart ≠ []) then
        some ((natOfDigits intPart : ℚ) +
          (natOfDigits fracPart : ℚ) / (10 : ℚ) ^ fracPart.length)
      else none
  | _ => none

/-- Python `float(s)` on a string: strip whitespace, optional sign, then
an unsigned float literal, else `ValueError`. -/
def pyFloatOfString (s : String) : Option ℚ :=
  match stripSpaces s.toList with
  | '-' :: rest => (parseUnsignedFloat rest).map (fun q => -q)
  | '+' :: rest => parseUnsignedFloat rest
  | cs => parseUnsignedFloat cs

/-- The `float(seconds)` conversion on line 44 of `gdn_bridge.py`, applied
to the class-attribute value: identity on a float default, string parsing
(raising `ValueError` on failure) on an environment string. -/
def pyFloat : TimeoutSetting → Except PyExn ℚ
  | .envString s =>
      match pyFloatOfString s with
      | some q => .ok q
      | none => .error (valueErrorFloat s)
  | .defaultFloat q => .ok q

/-!
The `timeout` decorator (`gdn_bridge.py` lines 29-54):

    def timeout(seconds=5.0, error_message="Timed out."):
        def decorator(func):
            def _handle_timeout():
                raise RPCTimeoutError(error_message)
            def wrapper(*args, **kwargs):
                timer = threading.Timer(float(seconds), _handle_timeout)
                try:
                    timer.start()
                    result = func(*args, **kwargs)
                finally:
                    timer.cancel()
                return result
            return functools.wraps(func)(wrapper)
        return decorator

CPython semantics used by the embedding:
  * `float(seconds)` runs before the `try` block; if it raises, the timer
    is never created and `func` is never invoked.
  * `threading.Timer(d, fn).start()` runs `fn` on a separate thread after
    waiting `d` seconds (immediately when `d <= 0`), unless `cancel()` is
    called first.  An exception raised by `fn` terminates only the timer
    thread (it reaches `threading.excepthook`); it is never delivered to
    the thread executing `wrapper`, so `wrapper` still returns `func`'s
    result (or propagates `func`'s own exception) even after the timer
    fired.
  * `timer.cancel()` in the `finally` block runs on every exit path and
    guarantees the callback will not run afterwards, so no live timer
    survives the call.
-/

/-- The guarded callable `func` together with the wall-clock time it takes
on this call: `duration` time units pass before it returns `outcome`
(a value, or an exception it raises). -/
structure Operation (α : Type) where
  duration : ℚ
  outcome : Except PyExn α
deriving Repr

/-- Everything observable about one call through the `wrapper` closure
produced by the `timeout` decorator. -/
structure CallOutcome (α : Type) where
  /-- What the caller of the wrapped function observes: `func`'s returned
  value, `func`'s own raised exception, or the `ValueError` from
  `float(seconds)`. -/
  callerResult : Except PyExn α
  /-- Whether `func` was invoked at all. -/
  opInvoked : Bool
  /-- Whether the `threading.Timer` callback `_handle_timeout` ran. -/
  timerFired : Bool
  /-- The exception raised and lost in the timer's own thread, if the
  timer fired. -/
  timerThreadExn : Option PyExn
  /-- Whether a live timer remains once the call has finished (always
  false: `timer.cancel()` runs in the `finally` block, and on the
  `float`-failure path no timer was ever created). -/
  timerActiveAfterReturn : Bool
deriving Repr

/-- One call through the `wrapper` produced by
`timeout(seconds, error_message)` applied to an operation that takes
`op.duration` time units.  The timer fires exactly when its interval
elapses before `func` returns, i.e. when `float(seconds) < op.duration`
(a timer with non-positive interval fires immediately). -/
def timeoutCall {α : Type} (seconds : TimeoutSetting) (error_message : String)
    (op : Operation α) : CallOutcome α :=
  match pyFloat seconds with
  | .error e =>
      { callerResult := .error e
        opInvoked := false
        timerFired := false
        timerThreadExn := none
        timerActiveAfterReturn := false }
  | .ok d =>
      let fired := decide (d < op.duration)
      { callerResult := op.outcome
        opInvoked := true
        timerFired := fired
        timerThreadExn := if fired then some (RPCTimeoutError error_message) else none
        timerActiveAfterReturn := false }

/-- `GDNBridge.ping` (lines 177-183): the inherited `Communicator.ping`
call (external to this module, passed in as `superPing`) decorated with
`timeout(SHOTGUN_GDN_HEARTBEAT_TIMEOUT, "Ping timed out.")`. -/
def GDNBridge.ping (envHeartbeat : Option String) (superPing : Operation Unit) :
    CallOutcome Unit :=
  timeoutCall (SHOTGUN_GDN_HEARTBEAT_TIMEOUT envHeartbeat) "Ping timed out." superPing

/-- `GDNBridge._wait_for_response` (lines 387-399): the inherited
`Communicator._wait_for_response(uid)` call (external, passed in as
`superWait`) decorated with
`timeout(SHOTGUN_GDN_RESPONSE_TIMEOUT, "Timed out waiting for response.")`. -/
def GDNBridge.wait_for_response (envResponse : Option String) (_uid : Int)
    (superWait : Operation String) : CallOutcome String :=
  timeoutCall (SHOTGUN_GDN_RESPONSE_TIMEOUT envResponse)
    "Timed out waiting for response." superWait

/-- The two timeout settings held by the bridge class. -/
structure BridgeConfig where
  responseTimeout : TimeoutSetting
  heartbeatTimeout : TimeoutSetting
deriving Repr, DecidableEq

/-- `GDNBridge.__init__` (lines 101-121): logs the two class-attribute
settings with `%s` formatting (total for any value) and registers the six
inbound handlers.  It performs no numeric conversion of either setting,
so construction cannot fail on a non-numeric environment value. -/
def GDNBridge.init (envResponse envHeartbeat : Option String) :
    Except PyExn BridgeConfig :=
  .ok ⟨SHOTGUN_GDN_RESPONSE_TIMEOUT envResponse, SHOTGUN_GDN_HEARTBEAT_TIMEOUT envHeartbeat⟩

/-- The six inbound channel names registered by `__init__`
(lines 116-121), in registration order. -/
def GDNBridge.registeredChannels : List String :=
  ["logging", "command", "run_tests", "state_requested",
   "active_document_changed", "gdn_hwnd"]

/-!
JSON values, `json.loads` and `json.dumps`.

`sgtk.util.json.loads` is `json.loads` followed by a byte/str cleanup that
is the identity on ordinary decoded values; both are modelled by `loads`
below.  Python distinguishes `int` and `float` results, so the value type
does too.
-/

/-- A decoded JSON value, as produced by Python `json.loads`. -/
inductive JVal where
  | jnull
  | jbool (b : Bool)
  | jint (n : Int)
  | jfloat (q : ℚ)
  | jstr (s : String)
  | jarr (elems : List JVal)
  | jobj (items : List (String × JVal))
deriving Repr

/-- The opening brace character, U+007B. -/
def lbraceChar : Char := Char.ofNat 123

/-- The closing brace character, U+007D. -/
def rbraceChar : Char := Char.ofNat 125

/-- Skip JSON insignificant whitespace. -/
def skipWs : List Char → List Char
  | [] => []
  | c :: rest =>
      if c = ' ' ∨ c = '\t' ∨ c = '\n' ∨ c = '\r' then skipWs rest else c :: rest

/-- Value of one hexadecimal digit. -/
def hexVal (c : Char) : Option Nat :=
  if c.isDigit then some (c.toNat - 48)
  else if 'a' ≤ c ∧ c ≤ 'f' then some (c.toNat - 87)
  else if 'A' ≤ c ∧ c ≤ 'F' then some (c.toNat - 55)
  else none

/-- The character denoted by a one-character JSON escape. -/
def unescapeChar (c : Char) : Option Char :=
  if c = '"' then some '"'
  else if c = '\\' then some '\\'
  else if c = '/' then some '/'
  else if c = 'b' then some (Char.ofNat 8)
  else if c = 'f' then some (Char.ofNat 12)
  else if c = 'n' then some '\n'
  else if c = 'r' then some '\r'
  else if c = 't' then some '\t'
  else none

/-- Body of a JSON string (the opening quote already consumed): returns
the decoded characters and the input after the closing quote. -/
def parseStrBody : Nat → List Char → Option (List Char × List Char)
  | 0, _ => none
  | _, [] => none
  | fuel + 1, c :: rest =>
    if c = '"' then some ([], rest)
    else if c = '\\' then
      match rest with
      | [] => none
      | e :: rest2 =>
        if e = 'u' then
          match rest2 with
          | h1 :: h2 :: h3 :: h4 :: rest3 =>
            match hexVal h1, hexVal h2, hexVal h3, hexVal h4 with
            | some a, some b, some c2, some d =>
              match parseStrBody fuel rest3 with
              | some (s, rem) =>
                  some (Char.ofNat (4096 * a + 256 * b + 16 * c2 + d) :: s, rem)
              | none => none
            | _, _, _, _ => none
          | _ => none
        else
          match unescapeChar e with
          | some ec =>
            match parseStrBody fuel rest2 with
            | some (s, rem) => some (ec :: s, rem)
            | none => none
          | none => none
    else if c.toNat < 32 then none
    else
      match parseStrBody fuel rest with
      | some (s, rem) => some (c :: s, rem)
      | none => none

/-- Exponent part of a JSON number, when one is present; `none` means the
input does not start with a well-formed exponent (the number ends before
it, as with Python json, which then reports the leftover as extra data). -/
def parseExponent (cs : List Char) : Option (Int × List Char) :=
  match cs with
  | c :: rest =>
    if c = 'e' ∨ c = 'E' then
      let signedRest : Int × List Char :=
        match rest with
        | '+' :: r => (1, r)
        | '-' :: r => (-1, r)
        | r => (1, r)
      let ds := signedRest.2.takeWhile Char.isDigit
      if ds = [] then none
      else some (signedRest.1 * (natOfDigits ds : Int), signedRest.2.dropWhile Char.isDigit)
    else none
  | [] => none

/-- The rational denoted by sign, integer digits, fraction digits and
exponent. -/
def jnumValue (neg : Bool) (intPart fracPart : List Char) (expVal : Int) : ℚ :=
  let mag : ℚ := (natOfDigits intPart : ℚ) +
    (natOfDigits fracPart : ℚ) / (10 : ℚ) ^ fracPart.length
  (if neg then -mag else mag) * (10 : ℚ) ^ expVal

/-- A JSON number: optional minus, integer part without leading zeros,
optional fraction, optional exponent.  Produces `jint` exactly when
neither a fraction nor an exponent is present, as Python json does. -/
def parseJNumber (cs : List Char) : Option (JVal × List Char) :=
  let signSplit : Bool × List Char :=
    match cs with
    | '-' :: rest => (true, rest)
    | _ => (false, cs)
  let neg := signSplit.1
  let cs1 := signSplit.2
  let intPart := cs1.takeWhile Char.isDigit
  let cs2 := cs1.dropWhile Char.isDigit
  if intPart = [] then none
  else if 1 < intPart.length ∧ intPart.headI = '0' then none
  else
    let fracSplit : List Char × List Char :=
      match cs2 with
      | '.' :: cs3 =>
        let f := cs3.takeWhile Char.isDigit
        if f = [] then ([], cs2) else (f, cs3.dropWhile Char.isDigit)
      | _ => ([], cs2)
    let fracPart := fracSplit.1
    let cs4 := fracSplit.2
    match parseExponent cs4 with
    | some (expVal, cs5) => some (.jfloat (jnumValue neg intPart fracPart expVal), cs5)
    | none =>
      if fracPart = [] then
        some (.jint (if neg then -(natOfDigits intPart : Int) else (natOfDigits intPart : Int)), cs4)
      else some (.jfloat (jnumValue neg intPart fracPart 0), cs4)

mutual

/-- A JSON value, fuel-bounded recursive descent. -/
def parseVal : Nat → List Char → Option (JVal × List Char)
  | 0, _ => none
  | fuel + 1, cs =>
    match skipWs cs with
    | [] => none
    | 'n' :: 'u' :: 'l' :: 'l' :: rest => some (.jnull, rest)
    | 't' :: 'r' :: 'u' :: 'e' :: rest => some (.jbool true, rest)
    | 'f' :: 'a' :: 'l' :: 's' :: 'e' :: rest => some (.jbool false, rest)
    | '"' :: rest =>
      match parseStrBody (rest.length + 1) rest with
      | some (s, rem) => some (.jstr (String.mk s), rem)
      | none => none
    | '[' :: rest => parseArrBody fuel rest
    | c :: rest =>
      if c = lbraceChar then parseObjBody fuel rest
      else parseJNumber (c :: rest)

/-- An array body (after `[`): empty array or first element. -/
def parseArrBody : Nat → List Char → Option (JVal × List Char)
  | 0, _ => none
  | fuel + 1, cs =>
    match skipWs cs with
    | ']' :: rest => some (.jarr [], rest)
    | cs2 =>
      match parseVal fuel cs2 with
      | some (v, rem) => parseArrItems fuel [v] rem
      | none => none

/-- Remaining array elements after at least one has been read. -/
def parseArrItems : Nat → List JVal → List Char → Option (JVal × List Char)
  | 0, _, _ => none
  | fuel + 1, acc, cs =>
    match skipWs cs with
    | ',' :: rest =>
      match parseVal fuel rest with
      | some (v, rem) => parseArrItems fuel (acc ++ [v]) rem
      | none => none
    | ']' :: rest => some (.jarr acc, rest)
    | _ => none

/-- An object body (after the opening brace): empty object or first key. -/
def parseObjBody : Nat → List Char → Option (JVal × List Char)
  | 0, _ => none
  | fuel + 1, cs =>
    match skipWs cs with
    | [] => none
    | c :: rest =>
      if c = rbraceChar then some (.jobj [], rest)
      else if c = '"' then
        match parseStrBody (rest.length + 1) rest with
        | some (k, rem) => parseObjTail fuel [] (String.mk k) rem
        | none => none
      else none

/-- After an object key: expect `:`, a value, then more members or the
closing brace. -/
def parseObjTail : Nat → List (String × JVal) → String → List Char →
    Option (JVal × List Char)
  | 0, _, _, _ => none
  | fuel + 1, acc, key, cs =>
    match skipWs cs with
    | ':' :: rest =>
      match parseVal fuel rest with
      | some (v, rem) => parseObjItems fuel (acc ++ [(key, v)]) rem
      | none => none
    | _ => none

/-- After a complete object member: either `,` and the next key, or the
closing brace. -/
def parseObjItems : Nat → List (String × JVal) → List Char →
    Option (JVal × List Char)
  | 0, _, _ => none
  | fuel + 1, acc, cs =>
    match skipWs cs with
    | [] => none
    | ',' :: rest =>
      match skipWs rest with
      | '"' :: rest2 =>
        match parseStrBody (rest2.length + 1) rest2 with
        | some (k, rem) => parseObjTail fuel acc (String.mk k) rem
        | none => none
      | _ => none
    | c :: rest => if c = rbraceChar then some (.jobj acc, rest) else none

end

/-- The `JSONDecodeError` raised when valid JSON is followed by trailing
non-whitespace text. -/
def extraDataError : PyExn :=
  ⟨"json.decoder.JSONDecodeError", "Extra data"⟩

/-- Python `json.loads` (as used via `sgtk.util.json.loads` and
`json.loads`): parse one JSON value, allow surrounding whitespace, reject
anything else. -/
def loads (s : String) : Except PyExn JVal :=
  let cs := s.toList
  match parseVal (cs.length + 1) cs with
  | some (v, rem) => if skipWs rem = [] then .ok v else .error extraDataError
  | none => .error jsonDecodeError

/-- Lower-case hexadecimal digit. -/
def hexDigit (n : Nat) : Char :=
  if n < 10 then Char.ofNat (48 + n) else Char.ofNat (87 + n)

/-- Four-digit hexadecimal form of a code point, for `\u` escapes. -/
def hexDigits4 (n : Nat) : List Char :=
  [hexDigit (n / 4096 % 16), hexDigit (n / 256 % 16), hexDigit (n / 16 % 16),
   hexDigit (n % 16)]

/-- `json.dumps` escaping of one character, with the default
`ensure_ascii=True`: named escapes, `\u00xx` for other control characters
and `\uxxxx` for non-ASCII (code points above U+FFFF, which need surrogate
pairs, are not modelled; no claim exercises them). -/
def escapeChar (c : Char) : List Char :=
  if c = '"' then ['\\', '"']
  else if c = '\\' then ['\\', '\\']
  else if c = '\n' then ['\\', 'n']
  else if c = '\t' then ['\\', 't']
  else if c = '\r' then ['\\', 'r']
  else if c = Char.ofNat 8 then ['\\', 'b']
  else if c = Char.ofNat 12 then ['\\', 'f']
  else if c.toNat < 32 ∨ 127 ≤ c.toNat then '\\' :: 'u' :: hexDigits4 c.toNat
  else [c]

/-- `json.dumps` of a string: quoted, with each character escaped. -/
def dumpJString (s : String) : String :=
  String.mk ('"' :: (s.toList.map escapeChar).flatten ++ ['"'])

/-- Decimal digits of the fractional part of a rational in `[0, 1)`, at
most `k` of them. -/
def fracDigitChars : Nat → ℚ → List Char
  | 0, _ => []
  | k + 1, q =>
    if q = 0 then []
    else
      let d := ⌊q * 10⌋
      Char.ofNat (48 + d.toNat) :: fracDigitChars k (q * 10 - d)

/-- Decimal rendering of a float value (Python prints the shortest
round-tripping decimal; this model prints up to 17 fractional digits —
no claim inspects float output text). -/
def dumpFloat (q : ℚ) : String :=
  let sign := if q < 0 then "-" else ""
  let a := |q|
  let ip := ⌊a⌋
  let fracCs := fracDigitChars 17 (a - ip)
  sign ++ toString ip ++ "." ++ (if fracCs = [] then "0" else String.mk fracCs)

mutual

/-- Python `json.dumps` on a decoded value, with the default separators
`", "` and `": "` and `ensure_ascii=True`. -/
def dumps : JVal → String
  | .jnull => "null"
  | .jbool true => "true"
  | .jbool false => "false"
  | .jint n => toString n
  | .jfloat q => dumpFloat q
  | .jstr s => dumpJString s
  | .jarr xs => "[" ++ dumpsList xs ++ "]"
  | .jobj kvs => String.mk [lbraceChar] ++ dumpsItems kvs ++ String.mk [rbraceChar]

/-- Array elements, comma separated. -/
def dumpsList : List JVal → String
  | [] => ""
  | [x] => dumps x
  | x :: xs => dumps x ++ ", " ++ dumpsList xs

/-- Object members, comma separated. -/
def dumpsItems : List (String × JVal) → String
  | [] => ""
  | [(k, v)] => dumpJString k ++ ": " ++ dumps v
  | (k, v) :: kvs => dumpJString k ++ ": " ++ dumps v ++ ", " ++ dumpsItems kvs

end

/-- Python `int(x)` on a decoded JSON value: identity on int, truncation
toward zero on float, 0/1 on bool, decimal parse on string
(`ValueError` on failure), `TypeError` on null, arrays and objects. -/
def pyInt : JVal → Except PyExn Int
  | .jint n => .ok n
  | .jfloat q => .ok (q.num.tdiv (q.den : Int))
  | .jbool b => .ok (if b then 1 else 0)
  | .jstr s =>
    match pyIntOfString s with
    | some n => .ok n
    | none => .error (valueErrorInt s)
  | .jnull => .error typeErrorInt
  | .jarr _ => .error typeErrorInt
  | .jobj _ => .error typeErrorInt

/-- Python `dict.get(k)` on a dict built by `json.loads` from an object
(duplicate keys: last occurrence wins, as in Python). -/
def pyDictGet (kvs : List (String × JVal)) (k : String) : Option JVal :=
  kvs.foldl (fun acc p => if p.1 = k then some p.2 else acc) none

/-!
Inbound forwarding handlers (`gdn_bridge.py` lines 339-365).

    def _forward_command(self, response):
        self.logger.debug("Emitting command_received signal.")
        self.command_received.emit(int(sgtk.util.json.loads(response)))

    def _forward_logging(self, response):
        response = sgtk.util.json.loads(response)
        self.logger.debug("Got logging command - forwarding to Qt %s" % response)
        self.logging_received.emit(
            response.get("level"),
            response.get("message"),
        )

Neither handler contains a `try`/`except`: an exception from `loads`, from
`int(...)` or from `.get(...)` on a non-dict propagates out of the handler
into the transport layer that invoked it.
-/

/-- A Qt signal emission performed by a forwarding handler.  The
`loggingReceived` arguments are the results of `dict.get`, which is `None`
for a missing key. -/
inductive QtEmission where
  | commandReceived (n : Int)
  | loggingReceived (level : Option JVal) (message : Option JVal)
deriving Repr

/-- Everything observable about one handler invocation: the debug lines
logged (formatting arguments elided), the signals emitted, and the
exception that escaped the handler, if any. -/
structure HandlerOutcome where
  debugLogs : List String
  emitted : List QtEmission
  raised : Option PyExn
deriving Repr

/-- `GDNBridge._forward_command` (lines 339-348). -/
def GDNBridge.forward_command (response : String) : HandlerOutcome :=
  let logs := ["Emitting command_received signal."]
  match loads response with
  | .error e => ⟨logs, [], some e⟩
  | .ok v =>
    match pyInt v with
    | .error e => ⟨logs, [], some e⟩
    | .ok n => ⟨logs, [.commandReceived n], none⟩

/-- `GDNBridge._forward_logging` (lines 350-365).  `loads` runs before the
debug line; `.get` on a decoded non-dict raises `AttributeError`. -/
def GDNBridge.forward_logging (response : String) : HandlerOutcome :=
  match loads response with
  | .error e => ⟨[], [], some e⟩
  | .ok v =>
    let logs := ["Got logging command - forwarding to Qt"]
    match v with
    | .jobj kvs =>
        ⟨logs, [.loggingReceived (pyDictGet kvs "level") (pyDictGet kvs "message")], none⟩
    | _ => ⟨logs, [], some attributeErrorNoGet⟩

/-!
Outbound fire-and-forget senders (`gdn_bridge.py` lines 226-299).
Arguments are arbitrary Python objects; `json.dumps` raises `TypeError`
on the first value it cannot serialize.
-/

/-- A Python object handed to a sender: the JSON-serializable shapes, plus
`pyraw` for any object `json.dumps` rejects. -/
inductive PyObj where
  | pynone
  | pybool (b : Bool)
  | pyint (n : Int)
  | pyfloat (q : ℚ)
  | pystr (s : String)
  | pylist (xs : List PyObj)
  | pydict (kvs : List (String × PyObj))
  | pyraw (typeName : String)
deriving Repr

mutual

/-- JSON view of a Python object, failing with `TypeError` on the first
non-serializable value, as `json.dumps` does. -/
def pyToJson : PyObj → Except PyExn JVal
  | .pynone => .ok .jnull
  | .pybool b => .ok (.jbool b)
  | .pyint n => .ok (.jint n)
  | .pyfloat q => .ok (.jfloat q)
  | .pystr s => .ok (.jstr s)
  | .pylist xs =>
    match pyListToJson xs with
    | .error e => .error e
    | .ok vs => .ok (.jarr vs)
  | .pydict kvs =>
    match pyDictToJson kvs with
    | .error e => .error e
    | .ok vs => .ok (.jobj vs)
  | .pyraw t => .error (typeErrorNotSerializable t)

/-- JSON view of a Python list, left to right. -/
def pyListToJson : List PyObj → Except PyExn (List JVal)
  | [] => .ok []
  | x :: xs =>
    match pyToJson x with
    | .error e => .error e
    | .ok v =>
      match pyListToJson xs with
      | .error e => .error e
      | .ok vs => .ok (v :: vs)

/-- JSON view of a Python dict with string keys, in insertion order. -/
def pyDictToJson : List (String × PyObj) → Except PyExn (List (String × JVal))
  | [] => .ok []
  | (k, x) :: kvs =>
    match pyToJson x with
    | .error e => .error e
    | .ok v =>
      match pyDictToJson kvs with
      | .error e => .error e
      | .ok vs => .ok ((k, v) :: vs)

end

/-- Python `json.dumps` on an arbitrary object: serialize or raise
`TypeError`. -/
def pyDumps (obj : PyObj) : Except PyExn String :=
  match pyToJson obj with
  | .error e => .error e
  | .ok v => .ok (dumps v)

/-- An interaction of a bridge method with the transport: a named
`self._io.emit`, or a blocking wait for a correlated response (performed
only by the inherited call-style machinery, never by the senders). -/
inductive IOAction where
  | emit (name : String) (payload : Option String)
  | waitForResponse (uid : Int)
deriving Repr, DecidableEq

/-- The dict literal `{"level": level, "msg": msg}` built by
`GDNBridge.log_message` (line 234). -/
def GDNBridge.log_data (level msg : PyObj) : PyObj :=
  .pydict [("level", level), ("msg", msg)]

/-- `GDNBridge.log_message` (lines 226-238): encode the dict, then emit
one `log_message` message; a `json.dumps` failure propagates (the method
deliberately does not log). -/
def GDNBridge.log_message (level msg : PyObj) : Except PyExn (List IOAction) :=
  match pyDumps (GDNBridge.log_data level msg) with
  | .error e => .error e
  | .ok j => .ok [.emit "log_message" (some j)]

/-- `GDNBridge.send_commands` (lines 240-250): encode, debug-log, emit one
`set_commands` message. -/
def GDNBridge.send_commands (commands : PyObj) : Except PyExn (List IOAction) :=
  match pyDumps commands with
  | .error e => .error e
  | .ok j => .ok [.emit "set_commands" (some j)]

/-- `GDNBridge.send_context_display` (lines 252-262). -/
def GDNBridge.send_context_display (context_display : PyObj) :
    Except PyExn (List IOAction) :=
  match pyDumps context_display with
  | .error e => .error e
  | .ok j => .ok [.emit "set_context_display" (some j)]

/-- `GDNBridge.send_context_thumbnail` (lines 264-274). -/
def GDNBridge.send_context_thumbnail (context_thumbnail : PyObj) :
    Except PyExn (List IOAction) :=
  match pyDumps context_thumbnail with
  | .error e => .error e
  | .ok j => .ok [.emit "set_context_thumbnail" (some j)]

/-- `GDNBridge.send_log_file_path` (lines 276-285). -/
def GDNBridge.send_log_file_path (log_file : PyObj) : Except PyExn (List IOAction) :=
  match pyDumps log_file with
  | .error e => .error e
  | .ok j => .ok [.emit "set_log_file_path" (some j)]

/-- `GDNBridge.send_unknown_context` (lines 287-292): emit one payloadless
`set_unknown_context` message. -/
def GDNBridge.send_unknown_context : Except PyExn (List IOAction) :=
  .ok [.emit "set_unknown_context" none]

/-- `GDNBridge.context_about_to_change` (lines 294-299): emit one
payloadless `context_about_to_change` message. -/
def GDNBridge.context_about_to_change : Except PyExn (List IOAction) :=
  .ok [.emit "context_about_to_change" none]

/-!
Active-document accessors (`gdn_bridge.py` lines 185-224).
-/

/-- A document object returned by the host accessor: either it has never
been saved (so `doc.fullName.fsName` raises) or it has a path on disk. -/
inductive DocRef where
  | unsaved
  | saved (path : String)
deriving Repr, DecidableEq

/-- The state of the host application visible through `self.app`:
`activeDocument` raises, is `None`, or yields a document. -/
inductive ActiveDocumentState where
  | accessRaises
  | noDoc
  | unsavedDoc
  | savedDoc (path : String)
deriving Repr, DecidableEq

/-- `GDNBridge.get_active_document` (lines 185-198): `self.app.activeDocument`
inside `try`/`except Exception` — a raising accessor is logged as a
warning and degrades to `None`. -/
def GDNBridge.get_active_document : ActiveDocumentState → Option DocRef
  | .accessRaises => none
  | .noDoc => none
  | .unsavedDoc => some .unsaved
  | .savedDoc p => some (.saved p)

/-- `doc.fullName.fsName`: raises for a never-saved document. -/
def docFullNameFsName : DocRef → Except PyExn String
  | .unsaved => .error ⟨"RuntimeError", "document has no file path"⟩
  | .saved p => .ok p

/-- `six.ensure_str` on a value that is already `str`: the identity. -/
def ensure_str (s : String) : String := s

/-- `GDNBridge.get_active_document_path` (lines 200-224): `None` when
there is no document, `None` when the path lookup raises (caught by the
inner `try`/`except`), else the path passed through `six.ensure_str`.
The `Except` result records that no exception escapes the method. -/
def GDNBridge.get_active_document_path (st : ActiveDocumentState) :
    Except PyExn (Option String) :=
  match GDNBridge.get_active_document st with
  | none => .ok none
  | some doc =>
    let path : Option String :=
      match docFullNameFsName doc with
      | .error _ => none
      | .ok p => some p
    .ok (path.map ensure_str)

/-!
Helper predicates used by the claim theorems.
-/

/-- A sender result behaves as a fire-and-forget emitter on channel `name`
with encoder result `enc`: on encode success it performs exactly one
`emit` of the encoded payload (in particular it never waits for a
response), and on encode failure it propagates exactly that exception. -/
def FireAndForget (sender : Except PyExn (List IOAction)) (name : String)
    (enc : Except PyExn String) : Prop :=
  match enc with
  | .ok j => sender = .ok [.emit name (some j)]
  | .error e => sender = .error e

/-- Keys of a Python dict literal, in insertion order. -/
def pyDictKeys : PyObj → List String
  | .pydict kvs => kvs.map Prod.fst
  | _ => []

/-!
Claim theorems.
-/

/-- Claim C1 (code bug, theorem at the failing input): with the default
heartbeat duration 0.5 and a guarded operation that takes 1 time unit and
returns 42, the deadline fires and the `RPCTimeoutError` carrying the
configured message is raised only in the timer's own thread, where it is
lost; the wrapped call still returns normal success 42 to its caller.
This contradicts the claim that the call raises the TimeoutFailure to the
caller and that the guard never returns normal success after a fired
deadline. -/
theorem timeout_fired_deadline_still_returns_success :
    (timeoutCall (.defaultFloat (1 / 2)) "Timed out."
      (⟨1, .ok 42⟩ : Operation Int)).timerFired = true ∧
    (timeoutCall (.defaultFloat (1 / 2)) "Timed out."
      (⟨1, .ok 42⟩ : Operation Int)).timerThreadExn
        = some (RPCTimeoutError "Timed out.") ∧
    (timeoutCall (.defaultFloat (1 / 2)) "Timed out."
      (⟨1, .ok 42⟩ : Operation Int)).callerResult = .ok 42 := by
  simp [timeoutCall, pyFloat]
  norm_num

/-- Claim C2 (counterexample): on the `command` channel, the well-formed
JSON but non-numeric payload `"foo"` makes the handler publish zero
events, log nothing about the failure, and raise the `int` conversion
`ValueError` out of the handler — it does not log and swallow the
failure, contrary to the claim. -/
theorem forward_command_nonnumeric_payload_raises :
    GDNBridge.forward_command "\"foo\"" =
      ⟨["Emitting command_received signal."], [], some (valueErrorInt "foo")⟩ := by
  rfl

/-- Claim C2 (amended): for every inbound payload on the `command` or
`logging` channel, the forwarding handler publishes zero events exactly
when an exception escapes it: a payload that fails to decode yields no
published event and a raised failure (propagated to the transport layer
that invoked the handler), not a logged-and-swallowed one. -/
theorem forward_handlers_zero_events_iff_raise (response : String) :
    ((GDNBridge.forward_command response).emitted = [] ↔
      (GDNBridge.forward_command response).raised ≠ none) ∧
    ((GDNBridge.forward_logging response).emitted = [] ↔
      (GDNBridge.forward_logging response).raised ≠ none) := by
  constructor
  · cases h : loads response with
    | error e => simp [GDNBridge.forward_command, h]
    | ok v =>
      cases h2 : pyInt v with
      | error e => simp [GDNBridge.forward_command, h, h2]
      | ok n => simp [GDNBridge.forward_command, h, h2]
  · cases h : loads response with
    | error e => simp [GDNBridge.forward_logging, h]
    | ok v => cases v <;> simp [GDNBridge.forward_logging, h]

/-- Claim C3 (counterexample): with the heartbeat variable set to the
non-numeric string "abc", bridge construction succeeds (no validation
happens there), and the failure surfaces only later, when the wrapped
`ping` operation is called: `float("abc")` raises `ValueError` inside the
wrapper, before the operation body runs.  This contradicts the claim that
an invalid value causes a failure at construction time and never later
during an operation. -/
theorem invalid_timeout_config_accepted_at_construction :
    GDNBridge.init none (some "abc") = .ok ⟨.defaultFloat 300, .envString "abc"⟩ ∧
    (GDNBridge.ping (some "abc") ⟨0, .ok ()⟩).callerResult
      = .error (valueErrorFloat "abc") ∧
    (GDNBridge.ping (some "abc") ⟨0, .ok ()⟩).opInvoked = false := by
  exact ⟨rfl, rfl, rfl⟩

/-- Claim C3 (amended): the two timeout settings are captured from the
environment once, when the class body is evaluated at import — not per
construction — defaulting to 300.0 (general call) and 0.5 (heartbeat);
construction always succeeds without validating them, and a non-numeric
setting instead raises its float-conversion `ValueError` each time a
guarded operation (here `ping`) is called, before the operation body is
invoked. -/
theorem timeout_config_fails_at_call_not_construction :
    (∀ envR envH, GDNBridge.init envR envH =
      .ok ⟨environGet envR 300, environGet envH (1 / 2)⟩) ∧
    GDNBridge.init none none = .ok ⟨.defaultFloat 300, .defaultFloat (1 / 2)⟩ ∧
    (∀ s op, pyFloatOfString s = none →
      (GDNBridge.ping (some s) op).callerResult = .error (valueErrorFloat s) ∧
      (GDNBridge.ping (some s) op).opInvoked = false) := by
  refine ⟨fun envR envH => rfl, rfl, fun s op h => ?_⟩
  constructor <;>
    simp [GDNBridge.ping, timeoutCall, pyFloat, SHOTGUN_GDN_HEARTBEAT_TIMEOUT,
      environGet, h]

/-- Claim C3 witness: at the concrete setting "abc" the amended theorem's
hypothesis holds and yields the call-time failure. -/
theorem timeout_config_fails_at_call_witness :
    pyFloatOfString "abc" = none ∧
    (GDNBridge.ping (some "abc") ⟨3, .ok ()⟩).callerResult
      = .error (valueErrorFloat "abc") := by
  exact ⟨rfl,
    ((timeout_config_fails_at_call_not_construction.2.2 "abc" ⟨3, .ok ()⟩) rfl).1⟩

/-- Claim C4: for every configured duration that converts to some d > 0
and every guarded operation that completes (returning or raising) in time
t < d, the wrapper returns the operation result (or propagates its
failure) unchanged, the timer never fires, and no timer remains active
after the call — the `finally` block cancels it on every exit path. -/
theorem timeout_completion_before_deadline {α : Type} (cfg : TimeoutSetting)
    (m : String) (d : ℚ) (op : Operation α)
    (hparse : pyFloat cfg = .ok d) (_hpos : 0 < d) (ht : op.duration < d) :
    (timeoutCall cfg m op).callerResult = op.outcome ∧
    (timeoutCall cfg m op).timerFired = false ∧
    (timeoutCall cfg m op).timerActiveAfterReturn = false := by
  simp [timeoutCall, hparse, asymm ht]

/-- Claim C4 witness: duration 5, an operation completing in 1 time unit
with result 7. -/
theorem timeout_completion_before_deadline_witness :
    pyFloat (.defaultFloat 5) = .ok 5 ∧ (0 : ℚ) < 5 ∧ (1 : ℚ) < 5 ∧
    (timeoutCall (.defaultFloat 5) "Timed out."
      (⟨1, .ok 7⟩ : Operation Int)).callerResult = .ok 7 := by
  refine ⟨rfl, by norm_num, by norm_num, ?_⟩
  exact (timeout_completion_before_deadline (.defaultFloat 5) "Timed out." 5
    ⟨1, .ok 7⟩ rfl (by norm_num) (by norm_num)).1

/-- Claim C5: a `logging` message whose payload decodes to a JSON object
yields exactly one `logging_received` emission carrying the object's
"level" and "message" values (via `dict.get`), and a `command` message
whose payload decodes to a JSON integer yields exactly one
`command_received` emission carrying that integer; neither handler
raises. -/
theorem forward_well_formed_publishes_one_event (resp1 resp2 : String)
    (kvs : List (String × JVal)) (n : Int)
    (h1 : loads resp1 = .ok (.jobj kvs)) (h2 : loads resp2 = .ok (.jint n)) :
    (GDNBridge.forward_logging resp1).emitted =
      [.loggingReceived (pyDictGet kvs "level") (pyDictGet kvs "message")] ∧
    (GDNBridge.forward_logging resp1).raised = none ∧
    (GDNBridge.forward_command resp2).emitted = [.commandReceived n] ∧
    (GDNBridge.forward_command resp2).raised = none := by
  simp [GDNBridge.forward_logging, GDNBridge.forward_command, h1, h2, pyInt]

/-- Claim C5 witness: the logging payload from the spec example and the
command payload `42`. -/
theorem forward_well_formed_witness :
    loads "\x7b\"level\": \"warning\", \"message\": \"disk full\"\x7d"
      = .ok (.jobj [("level", .jstr "warning"), ("message", .jstr "disk full")]) ∧
    loads "42" = .ok (.jint 42) ∧
    (GDNBridge.forward_logging
        "\x7b\"level\": \"warning\", \"message\": \"disk full\"\x7d").emitted
      = [.loggingReceived (some (.jstr "warning")) (some (.jstr "disk full"))] ∧
    (GDNBridge.forward_command "42").emitted = [.commandReceived 42] := by
  have h := forward_well_formed_publishes_one_event
    "\x7b\"level\": \"warning\", \"message\": \"disk full\"\x7d" "42"
    [("level", .jstr "warning"), ("message", .jstr "disk full")] 42 rfl rfl
  exact ⟨rfl, rfl, h.1.trans (by rfl), h.2.2.1⟩

/-- Claim C6 (code bug, theorem at the failing input): `ping` runs under
the heartbeat deadline (default 0.5) and `_wait_for_response` under the
general-call deadline (default 300), and on expiry the `RPCTimeoutError`
carries exactly "Ping timed out." respectively "Timed out waiting for
response." — but it is raised in the timer's own thread and lost, and
each call still returns its operation's normal result, so neither call
fails with the TimeoutFailure as the claim states. -/
theorem ping_and_wait_timeout_messages_lost :
    (GDNBridge.ping none ⟨1, .ok ()⟩).timerFired = true ∧
    (GDNBridge.ping none ⟨1, .ok ()⟩).timerThreadExn
      = some (RPCTimeoutError "Ping timed out.") ∧
    (GDNBridge.ping none ⟨1, .ok ()⟩).callerResult = .ok () ∧
    (GDNBridge.wait_for_response none 7 ⟨301, .ok "data"⟩).timerFired = true ∧
    (GDNBridge.wait_for_response none 7 ⟨301, .ok "data"⟩).timerThreadExn
      = some (RPCTimeoutError "Timed out waiting for response.") ∧
    (GDNBridge.wait_for_response none 7 ⟨301, .ok "data"⟩).callerResult
      = .ok "data" := by
  simp [GDNBridge.ping, GDNBridge.wait_for_response, timeoutCall, pyFloat,
    SHOTGUN_GDN_HEARTBEAT_TIMEOUT, SHOTGUN_GDN_RESPONSE_TIMEOUT, environGet]
  norm_num

/-- Claim C7: `get_active_document_path` never propagates a failure: it
returns `None` when the accessor raises, when there is no document and
when the document was never saved, and the saved document's path (through
`six.ensure_str`) otherwise. -/
theorem get_active_document_path_never_raises (st : ActiveDocumentState) :
    GDNBridge.get_active_document_path st =
      .ok (match st with | .savedDoc p => some p | _ => none) := by
  cases st <;> rfl

/-- Claim C8: each of the seven fire-and-forget senders JSON-encodes its
argument (when it has one) and performs exactly one `emit` under its exact
outbound channel name, never waits for a response, and fails only when
encoding fails, in which case exactly the encode exception propagates. -/
theorem senders_fire_and_forget (level msg commands cd ct lf : PyObj) :
    FireAndForget (GDNBridge.log_message level msg) "log_message"
      (pyDumps (GDNBridge.log_data level msg)) ∧
    FireAndForget (GDNBridge.send_commands commands) "set_commands"
      (pyDumps commands) ∧
    FireAndForget (GDNBridge.send_context_display cd) "set_context_display"
      (pyDumps cd) ∧
    FireAndForget (GDNBridge.send_context_thumbnail ct) "set_context_thumbnail"
      (pyDumps ct) ∧
    FireAndForget (GDNBridge.send_log_file_path lf) "set_log_file_path"
      (pyDumps lf) ∧
    GDNBridge.send_unknown_context = .ok [.emit "set_unknown_context" none] ∧
    GDNBridge.context_about_to_change
      = .ok [.emit "context_about_to_change" none] := by
  refine ⟨?_, ?_, ?_, ?_, ?_, rfl, rfl⟩
  · cases h : pyDumps (GDNBridge.log_data level msg) <;>
      simp [FireAndForget, GDNBridge.log_message, h]
  · cases h : pyDumps commands <;>
      simp [FireAndForget, GDNBridge.send_commands, h]
  · cases h : pyDumps cd <;>
      simp [FireAndForget, GDNBridge.send_context_display, h]
  · cases h : pyDumps ct <;>
      simp [FireAndForget, GDNBridge.send_context_thumbnail, h]
  · cases h : pyDumps lf <;>
      simp [FireAndForget, GDNBridge.send_log_file_path, h]

/-- Claim C9: for any configured duration converting to some d ≤ 0, one of
the two documented behaviours holds for every operation; in this code it
is always the second: the operation is invoked and the call returns
exactly the operation's own outcome, i.e. the caller observes no deadline
at all (the immediately-fired timer raises only in its own thread). -/
theorem timeout_nonpositive_duration_runs_op {α : Type} (cfg : TimeoutSetting)
    (m : String) (d : ℚ) (op : Operation α)
    (hparse : pyFloat cfg = .ok d) (_hd : d ≤ 0) :
    ((timeoutCall cfg m op).opInvoked = false ∧
      ∃ e, (timeoutCall cfg m op).callerResult = .error e) ∨
    ((timeoutCall cfg m op).opInvoked = true ∧
      (timeoutCall cfg m op).callerResult = op.outcome) := by
  right
  simp [timeoutCall, hparse]

/-- Claim C9 witness: duration 0 with an operation taking 2 time units and
returning 5. -/
theorem timeout_nonpositive_duration_witness :
    pyFloat (.defaultFloat 0) = .ok 0 ∧ (0 : ℚ) ≤ 0 ∧
    (((timeoutCall (.defaultFloat 0) "Timed out."
        (⟨2, .ok 5⟩ : Operation Int)).opInvoked = false ∧
      ∃ e, (timeoutCall (.defaultFloat 0) "Timed out."
        (⟨2, .ok 5⟩ : Operation Int)).callerResult = .error e) ∨
    ((timeoutCall (.defaultFloat 0) "Timed out."
        (⟨2, .ok 5⟩ : Operation Int)).opInvoked = true ∧
      (timeoutCall (.defaultFloat 0) "Timed out."
        (⟨2, .ok 5⟩ : Operation Int)).callerResult = .ok 5)) := by
  exact ⟨rfl, le_refl 0,
    timeout_nonpositive_duration_runs_op (.defaultFloat 0) "Timed out." 0
      ⟨2, .ok 5⟩ rfl (le_refl 0)⟩

/-- Claim C10: the outbound logging payload dict built by `log_message`
has keys exactly "level" and "msg" — in particular not "message", the key
the inbound `logging` handler reads — and the emitted message carries its
JSON encoding on the `log_message` channel. -/
theorem log_message_payload_keys_level_msg (level msg : String) :
    pyDictKeys (GDNBridge.log_data (.pystr level) (.pystr msg))
      = ["level", "msg"] ∧
    "message" ∉ pyDictKeys (GDNBridge.log_data (.pystr level) (.pystr msg)) ∧
    GDNBridge.log_message (.pystr level) (.pystr msg) =
      .ok [.emit "log_message"
        (some (dumps (.jobj [("level", .jstr level), ("msg", .jstr msg)])))] := by
  refine ⟨rfl, by simp [pyDictKeys, GDNBridge.log_data], ?_⟩
  simp [GDNBridge.log_message, GDNBridge.log_data, pyDumps, pyToJson,
    pyDictToJson]
